import Mathlib

/-!
Shallow embedding of `src/presentation_controller.py` (class
`PresentationSystem`): the slide-session state machine (`handle_command`,
`start_presentation`, `load_presentation`, `show_next_slide`,
`show_previous_slide`, `end_presentation`, the global debounce) and the BLE
connection-supervisor loop (`maintain_ble_connection`).

Times (`time.time()`, `time.sleep`) are modelled as rationals.  Slide images
are abstract tokens.  The GUI toolkit, the canvas geometry inside
`show_current_slide`, and the LibreOffice/PyMuPDF pipeline inside
`load_presentation` are external collaborators.  The conversion pipeline is
modelled as a function `String → Except String (List Image)`: its `.error`
case corresponds to a failure raised before any image has been stored into
`self.slide_images` (the `subprocess.run` / `os.path.exists` / `fitz.open`
steps of `load_presentation`, lines 408-430 of the source, all of which run
before the `self.slide_images = []` reset on line 431), and its `.ok` case
yields the ordered list of page images produced by the per-page loop.
-/

abbrev Time := ℚ

inductive LogLevel
  | info
  | warning
  | error
  deriving DecidableEq

structure LogEntry where
  level : LogLevel
  msg : String
  deriving DecidableEq

structure Image where
  id : Nat
  deriving DecidableEq

/-- Observable state of the `PresentationSystem` instance: the fields of
`__init__` (lines 75-84) that the embedded methods read or write, plus the
status-bar text, the visibility of the two frames and the displayed slide
(the observable effects of the GUI calls). `cursel` models
`presentation_list.curselection()` (empty tuple becomes `none`), `items`
models the Listbox contents. -/
structure SysState where
  presentation_mode : Bool
  current_slide : Int
  slides : List Nat
  slide_images : List Image
  items : List String
  cursel : Option Nat
  status_bar : String
  last_command_time : Option Time
  main_frame_visible : Bool
  presentation_frame_exists : Bool
  displayed_slide : Option Image
  deriving DecidableEq

/-- Embeds `show_current_slide` (lines 460-516): when `0 <= current_slide <
len(slide_images)` the slide image is rendered onto the canvas and the
status bar is set to `Slide i+1 of n`; otherwise nothing happens.  The
canvas-geometry arithmetic and its `Canvas not ready` warning path belong to
the out-of-scope rendering collaborator and are abstracted; the method never
touches `current_slide`, `slides` or `slide_images`. -/
def show_current_slide (s : SysState) : SysState :=
  if 0 ≤ s.current_slide ∧ s.current_slide < (s.slide_images.length : Int) then
    { s with
        displayed_slide := s.slide_images[s.current_slide.toNat]?,
        status_bar := "Slide " ++ toString (s.current_slide + 1) ++ " of " ++
          toString s.slide_images.length }
  else s

/-- Embeds `show_next_slide` (lines 518-523): `if self.current_slide <
len(self.slides) - 1: self.current_slide += 1; self.show_current_slide()`.
The comparison is over Python integers, hence over `Int` here. -/
def show_next_slide (s : SysState) : SysState :=
  if s.current_slide < (s.slides.length : Int) - 1 then
    show_current_slide { s with current_slide := s.current_slide + 1 }
  else s

/-- Embeds `show_previous_slide` (lines 525-530): `if self.current_slide >
0: self.current_slide -= 1; self.show_current_slide()`. -/
def show_previous_slide (s : SysState) : SysState :=
  if 0 < s.current_slide then
    show_current_slide { s with current_slide := s.current_slide - 1 }
  else s

/-- Embeds `end_presentation` (lines 532-544): clears
`presentation_mode`, destroys the presentation frame when it exists,
restores the main frame and sets the status bar to `Presentation ended`.
It touches no other field (in particular not `current_slide`, `slides`,
`slide_images` or `last_command_time`). -/
def end_presentation (s : SysState) : SysState :=
  { s with
      presentation_mode := false,
      presentation_frame_exists := false,
      main_frame_visible := true,
      status_bar := "Presentation ended" }

/-- Embeds `load_presentation` (lines 400-458).  `self.slides = []` runs
first (line 403); a conversion failure then lands in the `except` block
(lines 454-458): the status bar is set to the error text and
`end_presentation` is called (which overwrites the status bar again);
`self.slide_images` is not touched on this path.  On success
`slide_images` becomes the produced image list, `slides` the list of page
numbers `0..n-1`, and when `slides` is nonempty `current_slide` is reset to
`0` and the first slide is shown. -/
def load_presentation (convert : String → Except String (List Image))
    (s : SysState) (name : String) : SysState × List LogEntry :=
  let s1 := { s with slides := ([] : List Nat) }
  match convert name with
  | Except.error e =>
      let s2 := { s1 with status_bar := "Error loading presentation: " ++ e }
      (end_presentation s2,
        [⟨LogLevel.info, "Loading presentation: " ++ name⟩,
         ⟨LogLevel.error, "Error loading presentation: " ++ e⟩,
         ⟨LogLevel.info, "Ending presentation"⟩])
  | Except.ok imgs =>
      let s2 := { s1 with slide_images := imgs, slides := List.range imgs.length }
      let s3 := if s2.slides ≠ [] then show_current_slide { s2 with current_slide := 0 }
                else s2
      (s3,
        [⟨LogLevel.info, "Loading presentation: " ++ name⟩,
         ⟨LogLevel.info, "Converted " ++ toString imgs.length ++ " slides"⟩])

/-- Embeds `start_presentation` (lines 369-398): with no current selection
it returns immediately; with a selection it sets the status bar to
`Starting: name`, sets `presentation_mode = True`, hides the main frame,
creates the presentation frame and calls `load_presentation`. -/
def start_presentation (convert : String → Except String (List Image))
    (s : SysState) : SysState × List LogEntry :=
  match s.cursel with
  | none => (s, [])
  | some i =>
      let selected := s.items.getD i ""
      let s1 := { s with
        status_bar := "Starting: " ++ selected,
        presentation_mode := true,
        main_frame_visible := false,
        presentation_frame_exists := true }
      let r := load_presentation convert s1 selected
      (r.1, ⟨LogLevel.info, "Starting presentation: " ++ selected⟩ :: r.2)

/-- Embeds the navigation-mode `UP` branch of `handle_command` (lines
336-343): move the selection up by one when a selection exists and is
positive. -/
def nav_up (s : SysState) : SysState :=
  match s.cursel with
  | some i => if 0 < i then { s with cursel := some (i - 1) } else s
  | none => s

/-- Embeds the navigation-mode `DOWN` branch of `handle_command` (lines
345-352): move the selection down by one when a selection exists and is
below `size - 1` (Python integer comparison, hence `Int`). -/
def nav_down (s : SysState) : SysState :=
  match s.cursel with
  | some i =>
      if (i : Int) < (s.items.length : Int) - 1 then { s with cursel := some (i + 1) }
      else s
  | none => s

/-- Embeds the debounce test of `handle_command` (line 328): the attribute
`last_command_time` exists (it is set by the first accepted command) and
`current_time - self.last_command_time < 1.0`. -/
def debounce_rejects (s : SysState) (current_time : Time) : Bool :=
  match s.last_command_time with
  | some last => decide (current_time - last < 1)
  | none => false

/-- Embeds `handle_command` (lines 322-367): a debounced command returns
with the state unchanged; otherwise `last_command_time` is set to the call
time and the command is routed by `presentation_mode`.  Unrecognized
commands fall through every `elif` with no further effect.  Log entries
mirror the `logger` calls on the executed path (the per-branch `Selected
item` / `Moved to ...` detail lines inside the delegated methods are
elided; none of them is at warning level — the only `logger.warning` in the
source is the canvas fallback inside `show_current_slide`). -/
def handle_command (convert : String → Except String (List Image))
    (s : SysState) (command : String) (current_time : Time) :
    SysState × List LogEntry :=
  let recv : LogEntry := ⟨LogLevel.info, "Received command: " ++ command⟩
  if debounce_rejects s current_time then
    (s, [recv, ⟨LogLevel.info, "Ignoring command due to debounce: " ++ command⟩])
  else
    let s1 := { s with last_command_time := some current_time }
    if s1.presentation_mode = false then
      if command = "UP" then
        (nav_up s1, [recv, ⟨LogLevel.info, "Moving selection up"⟩])
      else if command = "DOWN" then
        (nav_down s1, [recv, ⟨LogLevel.info, "Moving selection down"⟩])
      else if command = "SELECT" then
        let r := start_presentation convert s1
        (r.1, recv :: ⟨LogLevel.info, "SELECT command received - starting presentation"⟩ :: r.2)
      else
        (s1, [recv])
    else
      if command = "UP" then
        (show_previous_slide s1, [recv, ⟨LogLevel.info, "Showing previous slide"⟩])
      else if command = "DOWN" then
        (show_next_slide s1, [recv, ⟨LogLevel.info, "Showing next slide"⟩])
      else if command = "SELECT" then
        (end_presentation s1,
         [recv,
          ⟨LogLevel.info, "SELECT command received in presentation mode - ending presentation"⟩,
          ⟨LogLevel.info, "Ending presentation"⟩])
      else
        (s1, [recv])

/-- Routing of one accepted command while in presentation mode: the `else`
branch of `handle_command` (lines 357-367). -/
def presenting_route (s : SysState) (command : String) : SysState :=
  if command = "UP" then show_previous_slide s
  else if command = "DOWN" then show_next_slide s
  else if command = "SELECT" then end_presentation s
  else s

/-!
The BLE connection supervisor, `maintain_ble_connection` (lines 209-320).
The `bluepy` transport is the environment: a cycle environment records, for
each connect attempt and each address type, whether `btle.Peripheral(...)`
raises, whether the service/characteristic/descriptor setup and the
enable-notifications write succeed, and after how many wait-loop rounds
`waitForNotifications` raises (the `while self.connected` loop, lines
294-301, exits only through an exception, since nothing else clears
`self.connected`).  `BleEvent` records the observable effects in order:
log lines, sleeps, status-label updates and the best-effort disconnect. -/

inductive AddrType
  | random
  | publicAddr
  deriving DecidableEq

/-- Address type tried first by each connect attempt: the source hardcodes
`btle.ADDR_TYPE_RANDOM` on line 221 as its first guess. -/
def hinted_addr_type : AddrType := AddrType.random

def other_addr_type : AddrType → AddrType
  | AddrType.random => AddrType.publicAddr
  | AddrType.publicAddr => AddrType.random

/-- Embeds one connect attempt with address-type fallback (lines 220-223):
`try: Peripheral(addrType=RANDOM) except: Peripheral(addrType=PUBLIC)`.
Returns whether the attempt succeeded and the list of address types tried,
in order. -/
def try_address_types (conn : AddrType → Bool) : Bool × List AddrType :=
  if conn AddrType.random then (true, [AddrType.random])
  else if conn AddrType.publicAddr then (true, [AddrType.random, AddrType.publicAddr])
  else (false, [AddrType.random, AddrType.publicAddr])

inductive BleEvent
  | attemptStart (k : Nat)
  | attemptFailed (k : Nat)
  | sleepEv (d : Time)
  | connectedEv
  | statusConnectedEv
  | subscribedEv
  | serviceErrorEv
  | waitEv
  | notifyErrorEv
  | bleErrorEv
  | disconnectEv
  | statusDisconnectedEv
  deriving DecidableEq

def max_retries : Nat := 3

def retry_delay : Time := 2

/-- Embeds the connect-retry loop `for retry in range(max_retries)` (lines
216-233): each attempt logs, tries both address types via
`try_address_types`, and on failure sleeps `retry_delay` when `retry <
max_retries - 1`, else re-raises (returning `false`).  `fuel` is the number
of loop iterations still available (`max_retries - k`); the loop exits only
through `break` (success) or `raise` (failure of the last attempt). -/
def connect_retry (conn : Nat → AddrType → Bool) : Nat → Nat → Bool × List BleEvent
  | 0, _ => (false, [])
  | fuel + 1, k =>
      if (try_address_types (conn k)).1 then
        (true, [BleEvent.attemptStart k, BleEvent.connectedEv])
      else if k < max_retries - 1 then
        let r := connect_retry conn fuel (k + 1)
        (r.1, BleEvent.attemptStart k :: BleEvent.attemptFailed k ::
              BleEvent.sleepEv retry_delay :: r.2)
      else
        (false, [BleEvent.attemptStart k, BleEvent.attemptFailed k])

/-- Supervisor-visible connection state: `self.connected`, whether
`self.peripheral` holds a handle, and the `ble_status` label text. -/
structure BleState where
  connected : Bool
  peripheral : Bool
  ble_status : String
  deriving DecidableEq

/-- Environment script for one iteration of the outer `while True` loop:
the per-attempt, per-address-type connect outcomes, whether the
service/characteristic/notification setup succeeds, and how many wait-loop
rounds pass before `waitForNotifications` raises. -/
structure CycleEnv where
  conn : Nat → AddrType → Bool
  subscribeOk : Bool
  waitRounds : Nat

/-- Embeds the outer `except` block (lines 306-320): log the error, clear
`connected`, show the disconnected status, best-effort `disconnect` when a
handle exists, clear the handle and sleep 2 seconds before the loop
restarts. -/
def ble_cleanup (s : BleState) : BleState × List BleEvent :=
  (⟨false, false, "Disconnected"⟩,
    BleEvent.bleErrorEv :: BleEvent.statusDisconnectedEv ::
      ((if s.peripheral then [BleEvent.disconnectEv] else []) ++ [BleEvent.sleepEv 2]))

/-- Embeds one iteration of the outer `while True` loop of
`maintain_ble_connection` (lines 213-320).  When already connected the body
does nothing.  Otherwise the connect-retry loop runs; on success the status
turns connected, a 0.5 s sleep elapses, the delegate is installed and the
subscription setup runs: on subscription success the wait loop runs until
`waitForNotifications` raises; every failure path (retry exhaustion,
subscription failure, wait-loop error) re-raises into the outer `except`
block, `ble_cleanup`. -/
def run_cycle (env : CycleEnv) (s : BleState) : BleState × List BleEvent :=
  if s.connected then (s, [])
  else
    let r := connect_retry env.conn max_retries 0
    if r.1 then
      let s1 : BleState := ⟨true, true, "Connected"⟩
      let pre := r.2 ++ [BleEvent.statusConnectedEv, BleEvent.sleepEv (1 / 2)]
      if env.subscribeOk then
        let c := ble_cleanup s1
        (c.1, pre ++ (BleEvent.subscribedEv ::
          (List.replicate env.waitRounds BleEvent.waitEv ++
            (BleEvent.notifyErrorEv :: BleEvent.serviceErrorEv :: c.2))))
      else
        let c := ble_cleanup s1
        (c.1, pre ++ (BleEvent.serviceErrorEv :: c.2))
    else
      let c := ble_cleanup ⟨false, s.peripheral, s.ble_status⟩
      (c.1, r.2 ++ c.2)

/-- State at thread start: `self.connected = False`, `self.peripheral =
None` (lines 75-76), status label showing disconnected. -/
def ble_init : BleState := ⟨false, false, "Disconnected"⟩

/-- The supervisor as a whole: the `while True` loop (line 213) iterated
over a stream of per-cycle environments.  `run_supervisor envs n` is the
state when the `n`-th iteration of the loop body begins. -/
def run_supervisor (envs : Nat → CycleEnv) : Nat → BleState
  | 0 => ble_init
  | n + 1 => (run_cycle (envs n) (run_supervisor envs n)).1

/-!
Concrete fixtures and event-counting helpers used by the witnesses and
counterexamples below.
-/

/-- Converter collaborator whose conversion always fails before any image
is produced (the LibreOffice step raising in `load_presentation`). -/
def conv_fail : String → Except String (List Image) :=
  fun _ => Except.error "PDF conversion failed"

/-- Converter collaborator that succeeds but yields a deck with zero pages
(an empty PDF), so `load_presentation` stores no slides. -/
def conv_empty : String → Except String (List Image) :=
  fun _ => Except.ok []

def demo_images : List Image := [⟨0⟩, ⟨1⟩, ⟨2⟩]

/-- Navigation-mode state after a previous presentation has been shown and
ended: `current_slide` and `slide_images` keep their last values because
`end_presentation` resets neither (lines 532-544), one presentation file is
listed and selected, and no command has been accepted yet. -/
def nav_ready : SysState :=
  { presentation_mode := false, current_slide := 5,
    slides := [0, 1, 2, 3, 4, 5, 6, 7, 8, 9], slide_images := demo_images,
    items := ["b.pptx"], cursel := some 0, status_bar := "Ready",
    last_command_time := none, main_frame_visible := true,
    presentation_frame_exists := false, displayed_slide := none }

/-- Presentation-mode state right after a successful load of a 3-slide
deck: `mode = Presenting`, `cursor = (0, 3)`. -/
def pres_demo : SysState :=
  { presentation_mode := true, current_slide := 0,
    slides := [0, 1, 2], slide_images := demo_images,
    items := ["b.pptx"], cursel := some 0, status_bar := "Slide 1 of 3",
    last_command_time := some 0, main_frame_visible := false,
    presentation_frame_exists := true, displayed_slide := some ⟨0⟩ }

def is_attempt_start : BleEvent → Bool
  | BleEvent.attemptStart _ => true
  | _ => false

def is_attempt_failed : BleEvent → Bool
  | BleEvent.attemptFailed _ => true
  | _ => false

def is_connected_ev : BleEvent → Bool
  | BleEvent.connectedEv => true
  | _ => false

def count_attempt_starts (evs : List BleEvent) : Nat := evs.countP is_attempt_start

def count_attempt_failures (evs : List BleEvent) : Nat := evs.countP is_attempt_failed

def count_connected_evs (evs : List BleEvent) : Nat := evs.countP is_connected_ev

/-- Connect-outcome script in which the first two attempts fail (with both
address types) and the third succeeds. -/
def two_fail_then_ok : Nat → AddrType → Bool := fun k _ => decide (k = 2)

/-!
Helper lemmas: field-preservation facts for the embedded methods, the
debounce characterization, single-step facts about `presenting_route`, and
unfolding or counting facts about the supervisor loop.
-/

@[simp] theorem show_current_slide_mode (s : SysState) :
    (show_current_slide s).presentation_mode = s.presentation_mode := by
  unfold show_current_slide; split <;> rfl

@[simp] theorem show_current_slide_cur (s : SysState) :
    (show_current_slide s).current_slide = s.current_slide := by
  unfold show_current_slide; split <;> rfl

@[simp] theorem show_current_slide_slides (s : SysState) :
    (show_current_slide s).slides = s.slides := by
  unfold show_current_slide; split <;> rfl

@[simp] theorem show_current_slide_last (s : SysState) :
    (show_current_slide s).last_command_time = s.last_command_time := by
  unfold show_current_slide; split <;> rfl

@[simp] theorem show_next_slide_last (s : SysState) :
    (show_next_slide s).last_command_time = s.last_command_time := by
  unfold show_next_slide; split <;> simp

@[simp] theorem show_previous_slide_last (s : SysState) :
    (show_previous_slide s).last_command_time = s.last_command_time := by
  unfold show_previous_slide; split <;> simp

@[simp] theorem end_presentation_last (s : SysState) :
    (end_presentation s).last_command_time = s.last_command_time := rfl

@[simp] theorem end_presentation_cur (s : SysState) :
    (end_presentation s).current_slide = s.current_slide := rfl

@[simp] theorem end_presentation_slides (s : SysState) :
    (end_presentation s).slides = s.slides := rfl

@[simp] theorem nav_up_last (s : SysState) :
    (nav_up s).last_command_time = s.last_command_time := by
  unfold nav_up; cases s.cursel <;> simp <;> split <;> rfl

@[simp] theorem nav_down_last (s : SysState) :
    (nav_down s).last_command_time = s.last_command_time := by
  unfold nav_down; cases s.cursel <;> simp <;> split <;> rfl

@[simp] theorem load_presentation_last (convert : String → Except String (List Image))
    (s : SysState) (name : String) :
    (load_presentation convert s name).1.last_command_time = s.last_command_time := by
  unfold load_presentation
  cases convert name <;> simp [end_presentation] <;> split <;> simp

@[simp] theorem start_presentation_last (convert : String → Except String (List Image))
    (s : SysState) :
    (start_presentation convert s).1.last_command_time = s.last_command_time := by
  unfold start_presentation; cases s.cursel <;> simp

theorem handle_command_last (convert : String → Except String (List Image))
    (s : SysState) (c : String) (t : Time) :
    (handle_command convert s c t).1.last_command_time =
      (if debounce_rejects s t then s.last_command_time else some t) := by
  unfold handle_command
  cases hdeb : debounce_rejects s t <;> cases hm : s.presentation_mode <;>
    simp [hdeb, hm] <;> split_ifs <;> simp_all

theorem handle_command_rejected (convert : String → Except String (List Image))
    (s : SysState) (c : String) (t : Time) (h : debounce_rejects s t = true) :
    (handle_command convert s c t).1 = s := by
  unfold handle_command; simp [h]

theorem debounce_rejects_iff (s : SysState) (t : Time) :
    debounce_rejects s t = true ↔
      ∃ l, s.last_command_time = some l ∧ t - l < 1 := by
  unfold debounce_rejects
  cases h : s.last_command_time <;> simp

theorem presenting_route_slides (s : SysState) (c : String) :
    (presenting_route s c).slides = s.slides := by
  unfold presenting_route show_previous_slide show_next_slide
  split_ifs <;> simp

theorem presenting_route_bounds (s : SysState) (c : String)
    (h0 : 0 ≤ s.current_slide) (h1 : s.current_slide < (s.slides.length : Int)) :
    0 ≤ (presenting_route s c).current_slide ∧
      (presenting_route s c).current_slide < (s.slides.length : Int) := by
  unfold presenting_route show_previous_slide show_next_slide
  split_ifs <;> (try simp) <;> constructor <;> omega

theorem presenting_route_zero (s : SysState) (c : String)
    (hn : s.slides = []) (h0 : s.current_slide = 0) :
    (presenting_route s c).current_slide = 0 := by
  unfold presenting_route show_previous_slide show_next_slide
  split_ifs <;> (try simp_all) <;> omega

theorem connect_retry_succ (conn : Nat → AddrType → Bool) (fuel k : Nat) :
    connect_retry conn (fuel + 1) k =
      (if (try_address_types (conn k)).1 then
        (true, [BleEvent.attemptStart k, BleEvent.connectedEv])
      else if k < max_retries - 1 then
        ((connect_retry conn fuel (k + 1)).1,
          BleEvent.attemptStart k :: BleEvent.attemptFailed k ::
            BleEvent.sleepEv retry_delay :: (connect_retry conn fuel (k + 1)).2)
      else
        (false, [BleEvent.attemptStart k, BleEvent.attemptFailed k])) := rfl

theorem connect_retry_start_count (conn : Nat → AddrType → Bool) :
    ∀ fuel k, count_attempt_starts (connect_retry conn fuel k).2 ≤ fuel := by
  intro fuel
  induction fuel with
  | zero => intro k; simp [connect_retry, count_attempt_starts]
  | succ n ih =>
      intro k
      rw [connect_retry_succ]
      split_ifs
      · simp [count_attempt_starts, is_attempt_start, List.countP_cons]
      · have := ih (k + 1)
        simp [count_attempt_starts, is_attempt_start, List.countP_cons] at this ⊢
        omega
      · simp [count_attempt_starts, is_attempt_start, List.countP_cons]

theorem connect_retry_sleep_delay (conn : Nat → AddrType → Bool) :
    ∀ fuel k d, BleEvent.sleepEv d ∈ (connect_retry conn fuel k).2 → d = retry_delay := by
  intro fuel
  induction fuel with
  | zero => intro k d h; simp [connect_retry] at h
  | succ n ih =>
      intro k d h
      rw [connect_retry_succ] at h
      split_ifs at h <;> simp [List.mem_cons] at h
      rcases h with h | h
      · exact h
      · exact ih (k + 1) d h

theorem run_cycle_from_init (env : CycleEnv) :
    (run_cycle env ble_init).1 = ble_init ∧
    ∃ l, (run_cycle env ble_init).2 = l ++ [BleEvent.sleepEv 2] := by
  unfold run_cycle
  cases hr : (connect_retry env.conn max_retries 0).1 <;>
    cases hsub : env.subscribeOk <;>
    simp [hr, hsub, ble_init, ble_cleanup]
  · exact ⟨(connect_retry env.conn max_retries 0).2 ++
      [BleEvent.bleErrorEv, BleEvent.statusDisconnectedEv], by simp [List.append_assoc]⟩
  · exact ⟨(connect_retry env.conn max_retries 0).2 ++
      [BleEvent.bleErrorEv, BleEvent.statusDisconnectedEv], by simp [List.append_assoc]⟩
  · exact ⟨(connect_retry env.conn max_retries 0).2 ++
      [BleEvent.statusConnectedEv, BleEvent.sleepEv (1 / 2), BleEvent.serviceErrorEv,
       BleEvent.bleErrorEv, BleEvent.statusDisconnectedEv, BleEvent.disconnectEv],
      by simp [List.append_assoc]⟩
  · exact ⟨(connect_retry env.conn max_retries 0).2 ++
      BleEvent.statusConnectedEv :: BleEvent.sleepEv (1 / 2) :: BleEvent.subscribedEv ::
        (List.replicate env.waitRounds BleEvent.waitEv ++
          [BleEvent.notifyErrorEv, BleEvent.serviceErrorEv, BleEvent.bleErrorEv,
           BleEvent.statusDisconnectedEv, BleEvent.disconnectEv]),
      by simp [List.append_assoc]⟩

/-!
Claim theorems.
-/

/-- C1 (counterexample to the claim as stated): the state `nav_ready` is a
navigation state left over after a 10-slide presentation (the cursor is
stale at 5, since `end_presentation` never resets it).  Accepting `SELECT`
with a converter that yields a zero-page deck enters Presenting mode with
`count = 0` and the stale index 5; the next accepted `UP` command then
changes the index from 5 to 4 even though `count == 0`, refuting the part
of the claim that says the index never changes when `count == 0`. -/
theorem stale_cursor_counterexample :
    (handle_command conv_empty nav_ready "SELECT" 0).1.presentation_mode = true ∧
    (handle_command conv_empty nav_ready "SELECT" 0).1.slides = [] ∧
    (handle_command conv_empty nav_ready "SELECT" 0).1.current_slide = 5 ∧
    (handle_command conv_empty
      (handle_command conv_empty nav_ready "SELECT" 0).1 "UP" 10).1.current_slide = 4 := by
  constructor
  · simp +decide [handle_command, debounce_rejects, start_presentation, load_presentation,
      show_current_slide, nav_ready, conv_empty]
  constructor
  · simp +decide [handle_command, debounce_rejects, start_presentation, load_presentation,
      show_current_slide, nav_ready, conv_empty]
  constructor
  · simp +decide [handle_command, debounce_rejects, start_presentation, load_presentation,
      show_current_slide, nav_ready, conv_empty]
  · simp +decide [handle_command, debounce_rejects, start_presentation, load_presentation,
      show_current_slide, show_previous_slide, nav_ready, conv_empty]

/-- C1 (amended): for every sequence of commands routed in Presenting mode,
the slides list is unchanged; if `0 ≤ index < count` holds initially it is
preserved (clamping, no wraparound, no error at either bound); and when
`count == 0` an index of 0 never changes.  (A stale index `> 0` combined
with `count == 0` can still be decremented, as the counterexample shows.) -/
theorem slide_cursor_clamped (cmds : List String) (s : SysState) :
    (cmds.foldl presenting_route s).slides = s.slides ∧
    (0 ≤ s.current_slide → s.current_slide < (s.slides.length : Int) →
      0 ≤ (cmds.foldl presenting_route s).current_slide ∧
        (cmds.foldl presenting_route s).current_slide < (s.slides.length : Int)) ∧
    (s.slides = [] → s.current_slide = 0 →
      (cmds.foldl presenting_route s).current_slide = 0) := by
  induction cmds generalizing s with
  | nil => exact ⟨rfl, fun h0 h1 => ⟨h0, h1⟩, fun _ h0 => h0⟩
  | cons c cs ih =>
      simp only [List.foldl_cons]
      refine ⟨?_, ?_, ?_⟩
      · rw [(ih (presenting_route s c)).1, presenting_route_slides]
      · intro h0 h1
        have hb := presenting_route_bounds s c h0 h1
        have := (ih (presenting_route s c)).2.1 hb.1
          (by rw [presenting_route_slides]; exact hb.2)
        rw [presenting_route_slides] at this
        exact this
      · intro hn h0
        exact (ih (presenting_route s c)).2.2
          (by rw [presenting_route_slides]; exact hn)
          (presenting_route_zero s c hn h0)

/-- C1 witness: four commands on a 3-slide deck starting at slide 0 keep
the cursor inside the bounds. -/
theorem slide_cursor_clamped_witness :
    0 ≤ (["DOWN", "DOWN", "DOWN", "UP"].foldl presenting_route pres_demo).current_slide ∧
      (["DOWN", "DOWN", "DOWN", "UP"].foldl presenting_route pres_demo).current_slide <
        ((pres_demo.slides.length : Nat) : Int) :=
  (slide_cursor_clamped ["DOWN", "DOWN", "DOWN", "UP"] pres_demo).2.1 (by decide) (by decide)

/-- C2: the debounce window is global over all tokens.  Whenever a command
is accepted at time `t` (the debounce test passes), the last-accepted
timestamp becomes `t`; a second command of any token at `t + 0.5` is
rejected and leaves the whole state unchanged (so the timestamp stays `t`);
a third command of any token at `t + 1.5` passes the debounce and is
accepted; and in general a command is rejected iff it arrives strictly less
than 1.0 time unit after the previously accepted command. -/
theorem debounce_window_global (convert : String → Except String (List Image))
    (s : SysState) (c1 c2 c3 : String) (t : Time)
    (h : debounce_rejects s t = false) :
    (handle_command convert s c1 t).1.last_command_time = some t ∧
    debounce_rejects (handle_command convert s c1 t).1 (t + 1 / 2) = true ∧
    (handle_command convert (handle_command convert s c1 t).1 c2 (t + 1 / 2)).1 =
      (handle_command convert s c1 t).1 ∧
    debounce_rejects (handle_command convert s c1 t).1 (t + 3 / 2) = false ∧
    (handle_command convert
        (handle_command convert (handle_command convert s c1 t).1 c2 (t + 1 / 2)).1
        c3 (t + 3 / 2)).1.last_command_time = some (t + 3 / 2) ∧
    (∀ s' t', debounce_rejects s' t' = true ↔
      ∃ l, s'.last_command_time = some l ∧ t' - l < 1) := by
  have h1 : (handle_command convert s c1 t).1.last_command_time = some t := by
    rw [handle_command_last, h]; rfl
  have hrej : debounce_rejects (handle_command convert s c1 t).1 (t + 1 / 2) = true :=
    (debounce_rejects_iff _ _).mpr ⟨t, h1, by linarith⟩
  have heq := handle_command_rejected convert (handle_command convert s c1 t).1 c2 (t + 1 / 2) hrej
  have hacc : debounce_rejects (handle_command convert s c1 t).1 (t + 3 / 2) = false := by
    cases hx : debounce_rejects (handle_command convert s c1 t).1 (t + 3 / 2) with
    | false => rfl
    | true =>
        obtain ⟨l, hl, hlt⟩ := (debounce_rejects_iff _ _).mp hx
        rw [h1] at hl
        have : l = t := (Option.some.injEq _ _).mp hl.symm
        subst this
        linarith
  refine ⟨h1, hrej, heq, hacc, ?_, fun s' t' => debounce_rejects_iff s' t'⟩
  rw [heq, handle_command_last, hacc]; rfl

/-- C2 witness: at the fresh state (no command accepted yet) the command at
time 0 is accepted and the one at time 0.5 is rejected. -/
theorem debounce_window_global_witness :
    (handle_command conv_fail nav_ready "UP" 0).1.last_command_time = some 0 ∧
    debounce_rejects (handle_command conv_fail nav_ready "UP" 0).1 (0 + 1 / 2) = true :=
  ⟨(debounce_window_global conv_fail nav_ready "UP" "DOWN" "SELECT" 0 (by decide)).1,
   (debounce_window_global conv_fail nav_ready "UP" "DOWN" "SELECT" 0 (by decide)).2.1⟩

/-- C3 (counterexample to the claim as stated): starting the selected
presentation from `nav_ready` with a failing converter leaves the three
images of the previously shown deck in `slide_images` (the failure is
raised before the `slide_images` reset), and the final status text is
`Presentation ended` — the `Error loading presentation` text written by the
handler is immediately overwritten by the `end_presentation` cleanup — so
neither "no slide images retained" nor "status text reflects the failure"
holds of the resulting state. -/
theorem conversion_failure_counterexample :
    (start_presentation conv_fail nav_ready).1.slide_images = demo_images ∧
    demo_images ≠ [] ∧
    (start_presentation conv_fail nav_ready).1.status_bar = "Presentation ended" := by
  refine ⟨?_, by decide, ?_⟩ <;>
    simp +decide [start_presentation, load_presentation, end_presentation, nav_ready, conv_fail]

/-- C3 (amended): when the conversion of the selected presentation fails,
the final mode is Navigation (Presenting is entered only transiently), the
slides list is empty, the main frame is restored and the presentation
frame destroyed, and the failure is logged at error level; but the final
status text is `Presentation ended` (the error text is overwritten by the
cleanup) and `slide_images` keeps whatever it held before the call. -/
theorem conversion_failure_state (convert : String → Except String (List Image))
    (s : SysState) (i : Nat) (e : String)
    (hc : s.cursel = some i) (hf : convert (s.items.getD i "") = Except.error e) :
    (start_presentation convert s).1.presentation_mode = false ∧
    (start_presentation convert s).1.slides = [] ∧
    (start_presentation convert s).1.slide_images = s.slide_images ∧
    (start_presentation convert s).1.status_bar = "Presentation ended" ∧
    (start_presentation convert s).1.main_frame_visible = true ∧
    (start_presentation convert s).1.presentation_frame_exists = false ∧
    LogEntry.mk LogLevel.error ("Error loading presentation: " ++ e) ∈
      (start_presentation convert s).2 := by
  unfold start_presentation load_presentation
  rw [hc]
  have hf2 : convert (s.items.getD i "") = Except.error e := hf
  simp only [List.getD_eq_getElem?_getD] at hf2
  simp [hf2, end_presentation]

/-- C3 witness: the amended facts evaluated at `nav_ready` with the failing
converter. -/
theorem conversion_failure_state_witness :
    (start_presentation conv_fail nav_ready).1.presentation_mode = false ∧
    (start_presentation conv_fail nav_ready).1.slide_images = nav_ready.slide_images :=
  ⟨(conversion_failure_state conv_fail nav_ready 0 "PDF conversion failed" (by decide) rfl).1,
   (conversion_failure_state conv_fail nav_ready 0 "PDF conversion failed" (by decide) rfl).2.2.1⟩

/-- C4: the supervisor never permanently gives up.  From the thread-start
state, every iteration of the `while True` loop begins in the Disconnected
state with the handle cleared (`run_supervisor envs n = ble_init` for every
`n` and every environment stream), each cycle — whether it ends by
connect-retry exhaustion, subscription failure, or an error in the Active
wait loop — returns to that same state with best-effort cleanup, its last
action is the 2-time-unit cooldown sleep, and the loop then runs its next
iteration, for every `n`. -/
theorem supervisor_restarts_forever (envs : Nat → CycleEnv) (n : Nat) :
    run_supervisor envs n = ble_init ∧
    run_supervisor envs (n + 1) = (run_cycle (envs n) (run_supervisor envs n)).1 ∧
    (run_cycle (envs n) (run_supervisor envs n)).1 = ble_init ∧
    ble_init.connected = false ∧ ble_init.peripheral = false ∧
    ∃ l, (run_cycle (envs n) (run_supervisor envs n)).2 = l ++ [BleEvent.sleepEv 2] := by
  have hs : ∀ m, run_supervisor envs m = ble_init := by
    intro m
    induction m with
    | zero => rfl
    | succ p ih =>
        show (run_cycle (envs p) (run_supervisor envs p)).1 = ble_init
        rw [ih]
        exact (run_cycle_from_init (envs p)).1
  refine ⟨hs n, rfl, ?_, rfl, rfl, ?_⟩
  · rw [hs n]; exact (run_cycle_from_init (envs n)).1
  · rw [hs n]; exact (run_cycle_from_init (envs n)).2

/-- C5: the connect-retry loop makes at most 3 attempts per cycle and every
delay it sleeps between consecutive attempts is the fixed 2-time-unit
`retry_delay`; simulating two failed attempts followed by one success
yields exactly the event trace `attempt 0, fail 0, sleep 2, attempt 1,
fail 1, sleep 2, attempt 2, connected`: one single transition to the
connected state and exactly 2 logged retry-failure events. -/
theorem connect_retry_simulation :
    (connect_retry two_fail_then_ok max_retries 0).1 = true ∧
    (connect_retry two_fail_then_ok max_retries 0).2 =
      [BleEvent.attemptStart 0, BleEvent.attemptFailed 0, BleEvent.sleepEv retry_delay,
       BleEvent.attemptStart 1, BleEvent.attemptFailed 1, BleEvent.sleepEv retry_delay,
       BleEvent.attemptStart 2, BleEvent.connectedEv] ∧
    count_attempt_failures (connect_retry two_fail_then_ok max_retries 0).2 = 2 ∧
    count_connected_evs (connect_retry two_fail_then_ok max_retries 0).2 = 1 ∧
    retry_delay = 2 ∧
    (∀ conn : Nat → AddrType → Bool,
      count_attempt_starts (connect_retry conn max_retries 0).2 ≤ max_retries) ∧
    (∀ (conn : Nat → AddrType → Bool) (d : Time),
      BleEvent.sleepEv d ∈ (connect_retry conn max_retries 0).2 → d = retry_delay) := by
  refine ⟨by decide, by decide, by decide, by decide, rfl,
    fun conn => connect_retry_start_count conn max_retries 0,
    fun conn d h => connect_retry_sleep_delay conn max_retries 0 d h⟩

/-- C5 witness: a sleep event does occur in the simulated trace and its
delay is the fixed retry delay. -/
theorem connect_retry_simulation_witness :
    BleEvent.sleepEv 2 ∈ (connect_retry two_fail_then_ok max_retries 0).2 ∧
    (2 : Time) = retry_delay := by
  refine ⟨by decide, connect_retry_simulation.2.2.2.2.2.2 two_fail_then_ok 2 (by decide)⟩

/-- C6: each connect attempt tries the hinted address type (the hardcoded
first guess `ADDR_TYPE_RANDOM`) first; when it fails, exactly one fallback
attempt with the other address type is made, and the attempt as a whole
fails only when both address types fail. -/
theorem address_type_fallback_order (conn : AddrType → Bool) :
    (try_address_types conn).2.head? = some hinted_addr_type ∧
    (try_address_types conn).2 =
      (if conn hinted_addr_type then [hinted_addr_type]
       else [hinted_addr_type, other_addr_type hinted_addr_type]) ∧
    (try_address_types conn).1 =
      (conn hinted_addr_type || conn (other_addr_type hinted_addr_type)) := by
  cases h0 : conn AddrType.random <;> cases h1 : conn AddrType.publicAddr <;>
    simp [try_address_types, hinted_addr_type, other_addr_type, h0, h1]

/-- C7 (counterexample to the claim as stated): the unrecognized token
`FOO` accepted at time 5 produces no warning-level log line (every entry on
this path is info level) and does change application state — the
last-accepted debounce timestamp goes from `none` to `some 5` — refuting
both "dropped with a logged warning" and "does not otherwise change
application state". -/
theorem unknown_token_counterexample :
    (∀ e ∈ (handle_command conv_fail nav_ready "FOO" 5).2, e.level ≠ LogLevel.warning) ∧
    (handle_command conv_fail nav_ready "FOO" 5).1.last_command_time = some 5 ∧
    nav_ready.last_command_time = none := by
  refine ⟨?_, ?_, rfl⟩ <;>
    simp +decide [handle_command, debounce_rejects, nav_ready]

/-- C7 (amended): a token other than UP, DOWN, SELECT falls through every
dispatch branch: the handler returns normally (nothing is raised, the
connection is untouched) and the state is unchanged except that, when the
debounce accepts the command, the last-accepted timestamp is set to the
call time; no warning is logged — every log entry on this path is at info
level. -/
theorem unknown_token_behavior (convert : String → Except String (List Image))
    (s : SysState) (c : String) (t : Time)
    (h1 : c ≠ "UP") (h2 : c ≠ "DOWN") (h3 : c ≠ "SELECT") :
    (handle_command convert s c t).1 =
      (if debounce_rejects s t then s else { s with last_command_time := some t }) ∧
    (∀ e ∈ (handle_command convert s c t).2, e.level = LogLevel.info) ∧
    (debounce_rejects s t = false →
      (handle_command convert s c t).1.last_command_time = some t) := by
  unfold handle_command
  cases hdeb : debounce_rejects s t <;> cases hm : s.presentation_mode <;>
    simp [hdeb, hm, h1, h2, h3]

/-- C7 witness: the amended behavior evaluated at the concrete token `FOO`
accepted at time 5. -/
theorem unknown_token_behavior_witness :
    (handle_command conv_fail nav_ready "FOO" 5).1 =
      { nav_ready with last_command_time := some 5 } ∧
    (∀ e ∈ (handle_command conv_fail nav_ready "FOO" 5).2, e.level = LogLevel.info) := by
  have h := unknown_token_behavior conv_fail nav_ready "FOO" 5
    (by decide) (by decide) (by decide)
  refine ⟨?_, h.2.1⟩
  rw [h.1]; decide

/-- C8 (counterexample to the claim as stated): calling `end_presentation`
on the Navigation-mode state `nav_ready` (status text `Ready`) is not a
no-op — it changes the observable status text to `Presentation ended`. -/
theorem end_in_navigation_counterexample :
    nav_ready.presentation_mode = false ∧
    end_presentation nav_ready ≠ nav_ready ∧
    (end_presentation nav_ready).status_bar = "Presentation ended" ∧
    nav_ready.status_bar = "Ready" := by
  decide

/-- C8 (amended): `end_presentation` raises no error in any state and is
idempotent, and it never touches the cursor, the slides, the slide images,
the selection or the debounce timestamp; but instead of being a no-op in
Navigation mode it always sets the status text to `Presentation ended`,
restores the main frame and clears the presentation frame. -/
theorem end_presentation_effects (s : SysState) :
    end_presentation s =
      { s with
          presentation_mode := false,
          presentation_frame_exists := false,
          main_frame_visible := true,
          status_bar := "Presentation ended" } ∧
    end_presentation (end_presentation s) = end_presentation s ∧
    (end_presentation s).current_slide = s.current_slide ∧
    (end_presentation s).slides = s.slides ∧
    (end_presentation s).slide_images = s.slide_images ∧
    (end_presentation s).cursel = s.cursel ∧
    (end_presentation s).items = s.items ∧
    (end_presentation s).last_command_time = s.last_command_time :=
  ⟨rfl, rfl, rfl, rfl, rfl, rfl, rfl, rfl⟩

/-- C9: every call to `handle_command` that passes the debounce check
updates the last-accepted timestamp to the call time, whatever the token
(recognized or not, clamped no-op or not); consequently every command of
any token arriving strictly less than 1.0 time unit later is rejected by
the debounce and leaves the state unchanged. -/
theorem accepted_command_updates_window (convert : String → Except String (List Image))
    (s : SysState) (c : String) (t : Time)
    (h : debounce_rejects s t = false) :
    (handle_command convert s c t).1.last_command_time = some t ∧
    (∀ c' t', t' - t < 1 →
      debounce_rejects (handle_command convert s c t).1 t' = true ∧
      (handle_command convert (handle_command convert s c t).1 c' t').1 =
        (handle_command convert s c t).1) := by
  have h1 : (handle_command convert s c t).1.last_command_time = some t := by
    rw [handle_command_last, h]; rfl
  refine ⟨h1, fun c' t' hlt => ?_⟩
  have hrej : debounce_rejects (handle_command convert s c t).1 t' = true :=
    (debounce_rejects_iff _ _).mpr ⟨t, h1, hlt⟩
  exact ⟨hrej, handle_command_rejected convert _ c' t' hrej⟩

/-- C9 witness: the unrecognized token `FOO` accepted at time 0 sets the
timestamp, and an `UP` command at time 0.5 is then rejected without a state
change. -/
theorem accepted_command_updates_window_witness :
    (handle_command conv_fail nav_ready "FOO" 0).1.last_command_time = some 0 ∧
    (handle_command conv_fail (handle_command conv_fail nav_ready "FOO" 0).1 "UP" (1 / 2)).1 =
      (handle_command conv_fail nav_ready "FOO" 0).1 :=
  ⟨(accepted_command_updates_window conv_fail nav_ready "FOO" 0 (by decide)).1,
   ((accepted_command_updates_window conv_fail nav_ready "FOO" 0 (by decide)).2 "UP" (1 / 2)
      (by norm_num)).2⟩

/-- C10: in Navigation mode with no current selection, `start_presentation`
returns immediately without starting a session, and UP, DOWN and SELECT
each raise no error and change nothing except (on an accepted command) the
debounce timestamp — in particular the mode stays Navigation, the selection
stays empty and no presentation state is touched. -/
theorem no_selection_noop (convert : String → Except String (List Image))
    (s : SysState) (c : String) (t : Time)
    (hm : s.presentation_mode = false) (hc : s.cursel = none) :
    start_presentation convert s = (s, []) ∧
    (handle_command convert s c t).1 =
      (if debounce_rejects s t then s else { s with last_command_time := some t }) := by
  have hstart : start_presentation convert s = (s, []) := by
    unfold start_presentation; rw [hc]
  refine ⟨hstart, ?_⟩
  unfold handle_command
  cases hdeb : debounce_rejects s t <;>
    simp [hdeb, hm] <;>
    split_ifs <;>
    simp [nav_up, nav_down, start_presentation, hc]

/-- C10 witness: `SELECT` at time 0 in a Navigation state with an empty
selection only sets the debounce timestamp. -/
theorem no_selection_noop_witness :
    start_presentation conv_fail { nav_ready with cursel := none } =
      ({ nav_ready with cursel := none }, []) ∧
    (handle_command conv_fail { nav_ready with cursel := none } "SELECT" 0).1 =
      { nav_ready with cursel := none, last_command_time := some 0 } := by
  have h := no_selection_noop conv_fail { nav_ready with cursel := none } "SELECT" 0
    (by decide) (by decide)
  refine ⟨h.1, ?_⟩
  rw [h.2]; decide
